import Mathlib

/-!
Verification of the User Similarity Search service (src/app/app.py).

The service is modelled by a shallow embedding:
* `User` mirrors the pydantic model (its `age : int = None` field is an
  optional integer).
* `user_to_text` mirrors the Python serializer, including the Python
  truthiness test `user.age if user.age else ...` which treats both a
  missing age and an age of 0 as falsy.
* The embedding client is a pure function over an oracle
  `EmbedRequest → EmbedResp` describing how the external Ollama endpoint
  answers each HTTP request; the client iterates over the fixed candidate
  model list, exactly as the Python loop does.
* The Qdrant store is a list of points; `upsert`, `retrieve`, `scroll`
  and `search` model the store operations the handlers rely on.
  Embedding vectors and similarity scores are never computed on by the
  service, so their numeric type is modelled by `Int`.
* Each HTTP handler becomes a function returning `Except HTTPException r`
  (an `HTTPException` carries the status code and detail string raised by
  the Python code).
-/

/-- The pydantic `User` model: `age: int = None` is an optional integer. -/
structure User where
  name : String
  bio : String
  interests : List String
  location : String
  age : Option Int
  deriving DecidableEq, Repr

/-- Embedding vectors: the service treats them as opaque numeric sequences
(it never does arithmetic on them), so components are modelled by `Int`. -/
abbrev Vec := List Int

/-- `fastapi.HTTPException`: a status code with a detail message. -/
structure HTTPException where
  status_code : Nat
  detail : String
  deriving DecidableEq, Repr

/-- The pydantic `UserResponse` model (`similarity_score: float = None`). -/
structure UserResponse where
  id : String
  user : User
  similarity_score : Option Int
  deriving DecidableEq, Repr

/-- `user_to_text` from the source: the age renders as `Unknown` whenever
`user.age` is Python-falsy, i.e. both when it is `None` and when it is 0. -/
def user_to_text (user : User) : String :=
  let interests := String.intercalate ", " user.interests
  let ageStr :=
    match user.age with
    | some a => if a = 0 then "Unknown" else toString a
    | none => "Unknown"
  "Name: " ++ user.name ++ ". Bio: " ++ user.bio ++ ". Interests: " ++ interests ++
    ". Location: " ++ user.location ++ ". Age: " ++ ageStr

/-- The Text Serializer as the specification words it: the age is shown when
the field is present and `Unknown` only when it is absent.  Kept separate from
`user_to_text` so the two can be compared. -/
def specUserToText (user : User) : String :=
  "Name: " ++ user.name ++ ". Bio: " ++ user.bio ++ ". Interests: " ++
    String.intercalate ", " user.interests ++ ". Location: " ++ user.location ++
    ". Age: " ++ (match user.age with | some a => toString a | none => "Unknown")

/-- One HTTP request issued by `get_embedding`: the model name and prompt sent
in the JSON body, and the client timeout (30 units in the source). -/
structure EmbedRequest where
  model : String
  prompt : String
  timeout : Nat
  deriving DecidableEq, Repr

/-- How the external embedding endpoint answers one request: either the
transport fails (any exception inside the `try` block), or an HTTP response
arrives with a status code and an optional `embedding` field. -/
inductive EmbedResp where
  | transportError
  | httpResp (status : Nat) (embedding : Option Vec)
  deriving DecidableEq, Repr

/-- The fixed candidate list `models_to_try` from the source. -/
def models_to_try : List String := ["nomic-embed-text"]

/-- The fixed per-request timeout (`timeout=30.0` in the source). -/
def requestTimeout : Nat := 30

/-- The `HTTPException` raised when every candidate model fails. -/
def embeddingFailure : HTTPException :=
  ⟨500, "Failed to generate embedding with any available model"⟩

/-- A response on which the Python loop moves on to the next candidate:
a transport error, a non-200 status, or a null/missing embedding. -/
def respFails : EmbedResp → Bool
  | .transportError => true
  | .httpResp status embedding => status != 200 || embedding.isNone

/-- The `for model in models_to_try` loop body of `get_embedding`. -/
def tryModels (oracle : EmbedRequest → EmbedResp) (text : String) :
    List String → Except HTTPException Vec
  | [] => .error embeddingFailure
  | m :: rest =>
    match oracle ⟨m, text, requestTimeout⟩ with
    | .transportError => tryModels oracle text rest
    | .httpResp status embedding =>
      if status != 200 then tryModels oracle text rest
      else
        match embedding with
        | none => tryModels oracle text rest
        | some v => .ok v

/-- `get_embedding` from the source, as a function of the endpoint oracle. -/
def get_embedding (oracle : EmbedRequest → EmbedResp) (text : String) :
    Except HTTPException Vec :=
  tryModels oracle text models_to_try

/-- A point stored in the Qdrant collection: id, vector, and the payload
(`user.dict()` holds exactly the `User` fields, so the payload is a `User`). -/
structure Point where
  id : String
  vector : Vec
  payload : User
  deriving DecidableEq, Repr

/-- The state of the Qdrant collection: the list of stored points. -/
abbrev Store := List Point

/-- `qdrant.upsert` with one point: insert or replace keyed by id. -/
def upsert (s : Store) (pt : Point) : Store :=
  pt :: s.filter (fun p => !(p.id == pt.id))

/-- `qdrant.retrieve`: the stored points whose id occurs in `ids`. -/
def retrieve (s : Store) (ids : List String) : List Point :=
  s.filter (fun p => ids.contains p.id)

/-- `qdrant.scroll` with a limit: at most `limit` stored points. -/
def scroll (s : Store) (limit : Nat) : List Point :=
  s.take limit

/-- One hit returned by `qdrant.search`: id, payload, similarity score. -/
structure ScoredPoint where
  id : String
  payload : User
  score : Int
  deriving DecidableEq, Repr

/-- Insert into a list of hits kept in descending score order. -/
def insertDesc (x : ScoredPoint) : List ScoredPoint → List ScoredPoint
  | [] => [x]
  | y :: ys => if y.score ≤ x.score then x :: y :: ys else y :: insertDesc x ys

/-- Sort hits by descending similarity score. -/
def sortDesc : List ScoredPoint → List ScoredPoint
  | [] => []
  | x :: xs => insertDesc x (sortDesc xs)

/-- `qdrant.search`: score every stored point against the query vector (the
scoring function abstracts the cosine similarity computed inside Qdrant),
rank by descending score and keep the best `limit` hits. -/
def search (scoreFn : Vec → Vec → Int) (s : Store) (query : Vec) (limit : Nat) :
    List ScoredPoint :=
  (sortDesc (s.map (fun p => ⟨p.id, p.payload, scoreFn query p.vector⟩))).take limit

/-- `create_user`: serialize, embed, upsert under a fresh id, and answer with
the id and the user.  The generated `uuid4` is passed in as `gen_id`.  The
result pairs the store state after the call with the HTTP outcome: when
`get_embedding` raises, the handler re-raises before any upsert, so the
store is returned unchanged. -/
def create_user (oracle : EmbedRequest → EmbedResp) (gen_id : String)
    (s : Store) (user : User) : Store × Except HTTPException UserResponse :=
  match get_embedding oracle (user_to_text user) with
  | .error e => (s, .error e)
  | .ok embedding =>
    (upsert s ⟨gen_id, embedding, user⟩, .ok ⟨gen_id, user, none⟩)

/-- `find_similar_user`: serialize, embed, search with limit 1; 404 on an
empty result set, otherwise answer with the top hit. -/
def find_similar_user (oracle : EmbedRequest → EmbedResp)
    (scoreFn : Vec → Vec → Int) (s : Store) (user : User) :
    Except HTTPException UserResponse :=
  match get_embedding oracle (user_to_text user) with
  | .error e => .error e
  | .ok embedding =>
    match search scoreFn s embedding 1 with
    | [] => .error ⟨404, "No similar users found"⟩
    | top :: _ => .ok ⟨top.id, top.payload, some top.score⟩

/-- `get_user`: retrieve by id; 404 when no point matches. -/
def get_user (s : Store) (user_id : String) : Except HTTPException UserResponse :=
  match retrieve s [user_id] with
  | [] => .error ⟨404, "User not found"⟩
  | r :: _ => .ok ⟨r.id, r.payload, none⟩

/-- `list_users`: the first 100 stored points mapped to responses. -/
def list_users (s : Store) : List UserResponse :=
  (scroll s 100).map (fun p => ⟨p.id, p.payload, none⟩)

/-- The distance metric passed to `create_collection`. -/
inductive Distance where
  | COSINE
  deriving DecidableEq, Repr

/-- The vector configuration passed to `create_collection`. -/
structure VectorParams where
  size : Nat
  distance : Distance
  deriving DecidableEq, Repr

/-- A named collection in the vector database. -/
structure Collection where
  name : String
  params : VectorParams
  deriving DecidableEq, Repr

/-- `COLLECTION_NAME` from the source. -/
def COLLECTION_NAME : String := "users1"

/-- `VECTOR_SIZE` from the source. -/
def VECTOR_SIZE : Nat := 768

/-- The module-level collection setup: list the collections (a call that can
itself fail), create the collection with size 768 and cosine distance when
its name is absent (a call that can also fail), leave the collections
untouched when it is present; the surrounding `try` re-raises every error,
so failures propagate out of startup. -/
def startupInit (getCollections : Except String (List Collection))
    (createResult : Except String Unit) : Except String (List Collection) :=
  match getCollections with
  | .error e => .error e
  | .ok collections =>
    if collections.any (fun c => c.name == COLLECTION_NAME) then .ok collections
    else
      match createResult with
      | .error e => .error e
      | .ok _ =>
        .ok (collections ++ [⟨COLLECTION_NAME, ⟨VECTOR_SIZE, Distance.COSINE⟩⟩])

/-! Helper lemmas about the candidate loop of the embedding client. -/

lemma tryModels_cons (oracle : EmbedRequest → EmbedResp) (text m : String)
    (rest : List String) :
    tryModels oracle text (m :: rest) =
      match oracle ⟨m, text, requestTimeout⟩ with
      | .transportError => tryModels oracle text rest
      | .httpResp status embedding =>
        if status != 200 then tryModels oracle text rest
        else
          match embedding with
          | none => tryModels oracle text rest
          | some v => .ok v := rfl

lemma tryModels_cons_of_fail (oracle : EmbedRequest → EmbedResp) (text m : String)
    (rest : List String) (h : respFails (oracle ⟨m, text, requestTimeout⟩) = true) :
    tryModels oracle text (m :: rest) = tryModels oracle text rest := by
  rw [tryModels_cons]
  cases hr : oracle ⟨m, text, requestTimeout⟩ with
  | transportError => rfl
  | httpResp status embedding =>
    rw [hr] at h
    by_cases hs : status = 200
    · subst hs
      simp only [respFails, bne_self_eq_false, Bool.false_or] at h
      cases embedding with
      | none => simp
      | some v => simp at h
    · have hb : (status != 200) = true := by simp [hs]
      simp [hb]

lemma tryModels_cons_of_succ (oracle : EmbedRequest → EmbedResp) (text m : String)
    (rest : List String) (v : Vec)
    (h : oracle ⟨m, text, requestTimeout⟩ = EmbedResp.httpResp 200 (some v)) :
    tryModels oracle text (m :: rest) = Except.ok v := by
  rw [tryModels_cons, h]
  simp

lemma respFails_or_succeeds (r : EmbedResp) :
    respFails r = true ∨ ∃ v, r = EmbedResp.httpResp 200 (some v) := by
  cases r with
  | transportError => exact Or.inl rfl
  | httpResp status embedding =>
    by_cases hs : status = 200
    · subst hs
      cases embedding with
      | none => exact Or.inl (by simp [respFails])
      | some v => exact Or.inr ⟨v, rfl⟩
    · exact Or.inl (by simp [respFails, hs])

lemma tryModels_error_of_all_fail (oracle : EmbedRequest → EmbedResp) (text : String) :
    ∀ ms : List String,
      (∀ m ∈ ms, respFails (oracle ⟨m, text, requestTimeout⟩) = true) →
      tryModels oracle text ms = Except.error embeddingFailure := by
  intro ms
  induction ms with
  | nil => intro _; rfl
  | cons m rest ih =>
    intro h
    rw [tryModels_cons_of_fail oracle text m rest (h m (by simp))]
    exact ih fun m' hm' => h m' (by simp [hm'])

lemma tryModels_ok_iff (oracle : EmbedRequest → EmbedResp) (text : String) :
    ∀ (ms : List String) (v : Vec), tryModels oracle text ms = Except.ok v ↔
      ∃ l1 m l2, ms = l1 ++ m :: l2 ∧
        (∀ m' ∈ l1, respFails (oracle ⟨m', text, requestTimeout⟩) = true) ∧
        oracle ⟨m, text, requestTimeout⟩ = EmbedResp.httpResp 200 (some v) := by
  intro ms
  induction ms with
  | nil =>
    intro v
    constructor
    · intro h
      exact absurd h (by simp [tryModels])
    · rintro ⟨l1, m, l2, habs, -, -⟩
      exact absurd habs (by simp)
  | cons hd rest ih =>
    intro v
    rcases respFails_or_succeeds (oracle ⟨hd, text, requestTimeout⟩) with hf | ⟨w, hw⟩
    · rw [tryModels_cons_of_fail oracle text hd rest hf]
      constructor
      · intro h
        obtain ⟨l1, m, l2, heq, hfail, hsucc⟩ := (ih v).1 h
        refine ⟨hd :: l1, m, l2, by rw [heq, List.cons_append], ?_, hsucc⟩
        intro m' hm'
        rcases List.mem_cons.mp hm' with rfl | hm''
        · exact hf
        · exact hfail m' hm''
      · rintro ⟨l1, m, l2, heq, hfail, hsucc⟩
        cases l1 with
        | nil =>
          simp only [List.nil_append] at heq
          obtain ⟨rfl, rfl⟩ := List.cons.inj heq
          rw [hsucc] at hf
          simp [respFails] at hf
        | cons a l1cs =>
          rw [List.cons_append] at heq
          obtain ⟨rfl, htl⟩ := List.cons.inj heq
          exact (ih v).2 ⟨l1cs, m, l2, htl, fun m' hm' => hfail m' (by simp [hm']), hsucc⟩
    · rw [tryModels_cons_of_succ oracle text hd rest w hw]
      constructor
      · intro h
        obtain rfl : w = v := by
          cases h
          rfl
        exact ⟨[], hd, rest, rfl, by simp, hw⟩
      · rintro ⟨l1, m, l2, heq, hfail, hsucc⟩
        cases l1 with
        | nil =>
          simp only [List.nil_append] at heq
          obtain ⟨rfl, rfl⟩ := List.cons.inj heq
          rw [hw] at hsucc
          obtain rfl : w = v := by
            cases hsucc
            rfl
          rfl
        | cons a l1cs =>
          rw [List.cons_append] at heq
          obtain ⟨rfl, -⟩ := List.cons.inj heq
          have hcontra := hfail hd (by simp)
          rw [hw] at hcontra
          simp [respFails] at hcontra

lemma tryModels_error_iff (oracle : EmbedRequest → EmbedResp) (text : String) :
    ∀ ms : List String, tryModels oracle text ms = Except.error embeddingFailure ↔
      ∀ m ∈ ms, respFails (oracle ⟨m, text, requestTimeout⟩) = true := by
  intro ms
  induction ms with
  | nil => simp [tryModels]
  | cons hd rest ih =>
    rcases respFails_or_succeeds (oracle ⟨hd, text, requestTimeout⟩) with hf | ⟨w, hw⟩
    · rw [tryModels_cons_of_fail oracle text hd rest hf]
      constructor
      · intro h m hm
        rcases List.mem_cons.mp hm with rfl | hm'
        · exact hf
        · exact (ih.1 h) m hm'
      · intro h
        exact ih.2 fun m hm => h m (by simp [hm])
    · rw [tryModels_cons_of_succ oracle text hd rest w hw]
      constructor
      · intro h
        cases h
      · intro h
        have hcontra := h hd (by simp)
        rw [hw] at hcontra
        simp [respFails] at hcontra

lemma tryModels_error_unique (oracle : EmbedRequest → EmbedResp) (text : String) :
    ∀ (ms : List String) (e : HTTPException),
      tryModels oracle text ms = Except.error e → e = embeddingFailure := by
  intro ms
  induction ms with
  | nil =>
    intro e h
    cases h
    rfl
  | cons hd rest ih =>
    intro e h
    rcases respFails_or_succeeds (oracle ⟨hd, text, requestTimeout⟩) with hf | ⟨w, hw⟩
    · rw [tryModels_cons_of_fail oracle text hd rest hf] at h
      exact ih e h
    · rw [tryModels_cons_of_succ oracle text hd rest w hw] at h
      cases h

/-! Shared concrete inputs for witnesses. -/

/-- A concrete user used to instantiate theorems. -/
def demoUser : User := ⟨"Ada", "mathematician", ["computing", "poetry"], "London", some 36⟩

/-- An endpoint that always answers 200 with a vector. -/
def okOracle : EmbedRequest → EmbedResp := fun _ => .httpResp 200 (some [1, 2, 3])

/-- An endpoint whose transport always fails. -/
def failOracle : EmbedRequest → EmbedResp := fun _ => .transportError

/-- Claim C1, amended: `user_to_text` produces the spec string
`Name: <name>. Bio: <bio>. Interests: <interests joined by ", ">.
Location: <location>. Age: <age or Unknown>` for every user whose age is not
the present value 0; when the age is present and 0 it instead renders the
age as `Unknown`, exactly as it does for an absent age.  It is pure and
total by construction. -/
theorem C1_text_serializer (u : User) :
    (u.age ≠ some 0 → user_to_text u = specUserToText u) ∧
    (u.age = some 0 → user_to_text u = specUserToText { u with age := none }) := by
  constructor
  · intro h
    cases ha : u.age with
    | none => simp [user_to_text, specUserToText, ha]
    | some a =>
      have hne : ¬a = 0 := fun h0 => h (by rw [ha, h0])
      simp [user_to_text, specUserToText, ha, hne]
  · intro h
    simp [user_to_text, specUserToText, h]

/-- Claim C1, counterexample to the claim as stated: for a user whose age
field is present and equal to 0, `user_to_text` does not produce the string
the claim prescribes for a present age (`Age: 0`). -/
theorem C1_counterexample :
    user_to_text ⟨"Ada", "mathematician", ["computing"], "London", some 0⟩ ≠
      specUserToText ⟨"Ada", "mathematician", ["computing"], "London", some 0⟩ := by
  decide

/-- Claim C1, witness: the amended serializer theorem applied to concrete
users with a nonzero age and with a zero age. -/
theorem C1_witness :
    user_to_text demoUser = specUserToText demoUser ∧
    user_to_text ⟨"Ada", "mathematician", ["computing"], "London", some 0⟩ =
      specUserToText { (⟨"Ada", "mathematician", ["computing"], "London", some 0⟩ : User) with age := none } :=
  ⟨(C1_text_serializer demoUser).1 (by decide),
   (C1_text_serializer ⟨"Ada", "mathematician", ["computing"], "London", some 0⟩).2 rfl⟩

/-- Claim C10: for every user whose age field is present and equal to 0 the
serializer outputs `Age: Unknown` (not `Age: 0`), making the serialized text
identical to that of the same user with the age absent. -/
theorem C10_zero_age_is_unknown (n b l : String) (ints : List String) :
    user_to_text ⟨n, b, ints, l, some 0⟩ = user_to_text ⟨n, b, ints, l, none⟩ ∧
    user_to_text ⟨n, b, ints, l, some 0⟩ =
      "Name: " ++ n ++ ". Bio: " ++ b ++ ". Interests: " ++
        String.intercalate ", " ints ++ ". Location: " ++ l ++ ". Age: " ++ "Unknown" :=
  ⟨rfl, rfl⟩

/-- Claim C2: when `create_user` succeeds, the response carries the original
user, and retrieving by the returned id yields that id together with a user
equal (field by field) to the original. -/
theorem C2_create_get_roundtrip (oracle : EmbedRequest → EmbedResp) (gen_id : String)
    (s snext : Store) (u : User) (r : UserResponse)
    (h : create_user oracle gen_id s u = (snext, Except.ok r)) :
    r.user = u ∧ get_user snext r.id = Except.ok ⟨r.id, u, none⟩ := by
  unfold create_user at h
  cases he : get_embedding oracle (user_to_text u) with
  | error e =>
    rw [he] at h
    exact absurd (congrArg Prod.snd h) (by simp)
  | ok emb =>
    rw [he] at h
    obtain ⟨hs, hr⟩ := Prod.mk.inj h
    obtain rfl : (⟨gen_id, u, none⟩ : UserResponse) = r := by
      cases hr
      rfl
    subst hs
    refine ⟨rfl, ?_⟩
    simp [get_user, retrieve, upsert, List.filter_cons]

/-- Claim C2, witness: a concrete create followed by a get on the returned
id returns the stored user. -/
theorem C2_witness :
    (⟨"id-1", demoUser, none⟩ : UserResponse).user = demoUser ∧
    get_user [⟨"id-1", [1, 2, 3], demoUser⟩] (⟨"id-1", demoUser, none⟩ : UserResponse).id =
      Except.ok ⟨(⟨"id-1", demoUser, none⟩ : UserResponse).id, demoUser, none⟩ :=
  C2_create_get_roundtrip okOracle "id-1" [] [⟨"id-1", [1, 2, 3], demoUser⟩] demoUser
    ⟨"id-1", demoUser, none⟩ rfl

/-- Claim C3: when every candidate model fails on the serialized user,
`create_user` raises the 500 embedding failure and leaves the store exactly
as it was (no upsert happens), and `find_similar_user` raises the same 500. -/
theorem C3_embedding_failure_atomic (oracle : EmbedRequest → EmbedResp)
    (scoreFn : Vec → Vec → Int) (gen_id : String) (s : Store) (u : User)
    (h : ∀ m ∈ models_to_try, respFails (oracle ⟨m, user_to_text u, requestTimeout⟩) = true) :
    create_user oracle gen_id s u = (s, Except.error embeddingFailure) ∧
    find_similar_user oracle scoreFn s u = Except.error embeddingFailure := by
  have he : get_embedding oracle (user_to_text u) = Except.error embeddingFailure :=
    tryModels_error_of_all_fail oracle (user_to_text u) models_to_try h
  exact ⟨by simp [create_user, he], by simp [find_similar_user, he]⟩

/-- Claim C3, witness: with an always-failing transport and a nonempty
store, create reports the 500 and returns the store unchanged, and
find-similar reports the same 500. -/
theorem C3_witness :
    create_user failOracle "id-2" [⟨"id-1", [1, 2, 3], demoUser⟩] demoUser =
      ([⟨"id-1", [1, 2, 3], demoUser⟩], Except.error embeddingFailure) ∧
    find_similar_user failOracle (fun _ _ => 0) [⟨"id-1", [1, 2, 3], demoUser⟩] demoUser =
      Except.error embeddingFailure :=
  C3_embedding_failure_atomic failOracle (fun _ _ => 0) "id-2"
    [⟨"id-1", [1, 2, 3], demoUser⟩] demoUser (fun _ _ => rfl)

/-- Claim C4: the embedding client tries the fixed candidate list
`["nomic-embed-text"]` in order, sending each request with the prompt and
the fixed 30-unit timeout; it returns `ok v` exactly when some candidate is
preceded only by failing candidates and answers 200 with embedding `v`;
it raises the descriptive 500 exactly when every candidate fails; and the
500 is the only error it can raise. -/
theorem C4_embedding_client (oracle : EmbedRequest → EmbedResp) (text : String) :
    models_to_try = ["nomic-embed-text"] ∧
    requestTimeout = 30 ∧
    get_embedding oracle text = tryModels oracle text models_to_try ∧
    (∀ (ms : List String) (v : Vec), tryModels oracle text ms = Except.ok v ↔
      ∃ l1 m l2, ms = l1 ++ m :: l2 ∧
        (∀ m' ∈ l1, respFails (oracle ⟨m', text, requestTimeout⟩) = true) ∧
        oracle ⟨m, text, requestTimeout⟩ = EmbedResp.httpResp 200 (some v)) ∧
    (∀ ms : List String, tryModels oracle text ms = Except.error embeddingFailure ↔
      ∀ m ∈ ms, respFails (oracle ⟨m, text, requestTimeout⟩) = true) ∧
    (∀ (ms : List String) (e : HTTPException),
      tryModels oracle text ms = Except.error e → e = embeddingFailure) :=
  ⟨rfl, rfl, rfl, tryModels_ok_iff oracle text, tryModels_error_iff oracle text,
   tryModels_error_unique oracle text⟩

/-- Claim C4, witness: on a 200 response with a vector, the client returns
that vector for the single configured candidate. -/
theorem C4_witness : get_embedding okOracle "some text" = Except.ok [1, 2, 3] := by
  have h := C4_embedding_client okOracle "some text"
  rw [h.2.2.1]
  exact (h.2.2.2.1 models_to_try [1, 2, 3]).mpr
    ⟨[], "nomic-embed-text", [], rfl, by simp, rfl⟩

lemma insertDesc_length (x : ScoredPoint) (l : List ScoredPoint) :
    (insertDesc x l).length = l.length + 1 := by
  induction l with
  | nil => rfl
  | cons y ys ih =>
    unfold insertDesc
    by_cases h : y.score ≤ x.score
    · simp [h]
    · simp [h, ih]

lemma sortDesc_length (l : List ScoredPoint) : (sortDesc l).length = l.length := by
  induction l with
  | nil => rfl
  | cons x xs ih => simp [sortDesc, insertDesc_length, ih]

/-- Claim C5: on an empty store the limit-1 search result is empty; on a
nonempty store it is not; `find_similar_user` (with a successful embedding)
raises 404 exactly on an empty search result, and otherwise answers with the
top hit mapped back to id, user payload and similarity score. -/
theorem C5_find_similar_behavior (oracle : EmbedRequest → EmbedResp)
    (scoreFn : Vec → Vec → Int) (s : Store) (u : User) (emb : Vec)
    (he : get_embedding oracle (user_to_text u) = Except.ok emb) :
    (s = [] → search scoreFn s emb 1 = []) ∧
    (s ≠ [] → search scoreFn s emb 1 ≠ []) ∧
    (search scoreFn s emb 1 = [] →
      find_similar_user oracle scoreFn s u = Except.error ⟨404, "No similar users found"⟩) ∧
    (∀ top rest, search scoreFn s emb 1 = top :: rest →
      find_similar_user oracle scoreFn s u =
        Except.ok ⟨top.id, top.payload, some top.score⟩) := by
  refine ⟨?_, ?_, ?_, ?_⟩
  · rintro rfl
    rfl
  · intro hs hsearch
    have hlen : (search scoreFn s emb 1).length = 0 := by rw [hsearch]; rfl
    rw [search, List.length_take, sortDesc_length, List.length_map] at hlen
    rcases Nat.min_eq_zero_iff.mp hlen with h1 | h0
    · exact absurd h1 (by simp)
    · exact hs (List.length_eq_zero.mp h0)
  · intro hempty
    simp [find_similar_user, he, hempty]
  · intro top rest htop
    simp [find_similar_user, he, htop]

/-- Claim C5, witness: a one-point store yields the stored user as top hit
with its score; an empty store yields the 404. -/
theorem C5_witness :
    find_similar_user okOracle (fun _ _ => 1) [⟨"id-1", [1, 2, 3], demoUser⟩] demoUser =
      Except.ok ⟨"id-1", demoUser, some 1⟩ ∧
    find_similar_user okOracle (fun _ _ => 1) [] demoUser =
      Except.error ⟨404, "No similar users found"⟩ :=
  ⟨(C5_find_similar_behavior okOracle (fun _ _ => 1) [⟨"id-1", [1, 2, 3], demoUser⟩]
      demoUser [1, 2, 3] rfl).2.2.2 ⟨"id-1", demoUser, 1⟩ [] rfl,
   (C5_find_similar_behavior okOracle (fun _ _ => 1) [] demoUser [1, 2, 3] rfl).2.2.1 rfl⟩

lemma retrieve_cons (q : Point) (rest : Store) (uid : String) :
    retrieve (q :: rest) [uid] =
      if q.id == uid then q :: retrieve rest [uid] else retrieve rest [uid] := by
  by_cases h : q.id = uid <;> simp [retrieve, List.filter_cons, List.elem_cons, h]

/-- Claim C6: `get_user` answers 404 exactly when no stored point carries the
requested id; when some stored point does, it answers 200 with the requested
id and the payload of a stored point carrying that id. -/
theorem C6_get_user_behavior (s : Store) (user_id : String) :
    ((∀ p ∈ s, p.id ≠ user_id) → get_user s user_id = Except.error ⟨404, "User not found"⟩) ∧
    ((∃ p ∈ s, p.id = user_id) →
      ∃ p ∈ s, p.id = user_id ∧ get_user s user_id = Except.ok ⟨user_id, p.payload, none⟩) := by
  induction s with
  | nil =>
    refine ⟨fun _ => rfl, ?_⟩
    rintro ⟨p, hp, -⟩
    cases hp
  | cons q rest ih =>
    by_cases hq : q.id = user_id
    · constructor
      · intro h
        exact absurd hq (h q (by simp))
      · intro _
        refine ⟨q, by simp, hq, ?_⟩
        have hretr : retrieve (q :: rest) [user_id] = q :: retrieve rest [user_id] := by
          rw [retrieve_cons]
          simp [hq]
        unfold get_user
        rw [hretr, ← hq]
    · have hstep : get_user (q :: rest) user_id = get_user rest user_id := by
        have hretr : retrieve (q :: rest) [user_id] = retrieve rest [user_id] := by
          rw [retrieve_cons]
          simp [hq]
        unfold get_user
        rw [hretr]
      constructor
      · intro h
        rw [hstep]
        exact ih.1 fun p hp => h p (by simp [hp])
      · rintro ⟨p, hp, hpid⟩
        rcases List.mem_cons.mp hp with rfl | hp'
        · exact absurd hpid hq
        · obtain ⟨pw, hpw, hidw, hget⟩ := ih.2 ⟨p, hp', hpid⟩
          exact ⟨pw, by simp [hpw], hidw, by rw [hstep]; exact hget⟩

/-- Claim C6, witness: get on the stored id returns the stored point; get on
an unknown id against the empty collection returns 404. -/
theorem C6_witness :
    get_user [] "missing" = Except.error ⟨404, "User not found"⟩ ∧
    (∃ p ∈ [(⟨"id-1", [1, 2, 3], demoUser⟩ : Point)], p.id = "id-1" ∧
      get_user [(⟨"id-1", [1, 2, 3], demoUser⟩ : Point)] "id-1" =
        Except.ok ⟨"id-1", p.payload, none⟩) :=
  ⟨(C6_get_user_behavior [] "missing").1 (by simp),
   (C6_get_user_behavior [⟨"id-1", [1, 2, 3], demoUser⟩] "id-1").2
     ⟨⟨"id-1", [1, 2, 3], demoUser⟩, by simp, rfl⟩⟩

/-- Claim C7: `list_users` maps the first 100 stored points, one response
entry per point; it returns exactly N entries when the store holds N ≤ 100
points, exactly 100 entries when it holds more, and the empty list on the
empty store; it is total by construction. -/
theorem C7_list_users_capped (s : Store) :
    list_users s = (s.take 100).map (fun p => UserResponse.mk p.id p.payload none) ∧
    (list_users s).length = min s.length 100 ∧
    (s.length ≤ 100 → (list_users s).length = s.length) ∧
    (100 < s.length → (list_users s).length = 100) ∧
    (s = [] → list_users s = []) := by
  have hlen : (list_users s).length = min s.length 100 := by
    simp [list_users, scroll, List.length_take]
    omega
  refine ⟨rfl, hlen, fun h => ?_, fun h => ?_, ?_⟩
  · rw [hlen]
    omega
  · rw [hlen]
    omega
  · rintro rfl
    rfl

/-- Claim C7, witness: a 2-point store lists 2 entries; a 101-point store
lists exactly 100. -/
theorem C7_witness :
    (list_users [⟨"a", [1], demoUser⟩, ⟨"b", [2], demoUser⟩]).length =
      ([(⟨"a", [1], demoUser⟩ : Point), ⟨"b", [2], demoUser⟩] : Store).length ∧
    (list_users (List.replicate 101 ⟨"a", [1], demoUser⟩)).length = 100 :=
  ⟨(C7_list_users_capped [⟨"a", [1], demoUser⟩, ⟨"b", [2], demoUser⟩]).2.2.1 (by simp),
   (C7_list_users_capped (List.replicate 101 ⟨"a", [1], demoUser⟩)).2.2.2.1 (by simp)⟩

lemma filter_ne_id_of_fresh (s : Store) (uid : String) (h : ∀ p ∈ s, p.id ≠ uid) :
    s.filter (fun p => !(p.id == uid)) = s := by
  induction s with
  | nil => rfl
  | cons q rest ih =>
    rw [List.filter_cons]
    have hq : (!(q.id == uid)) = true := by simp [h q (by simp)]
    rw [if_pos hq, ih fun p hp => h p (by simp [hp])]

/-- Claim C8: create is not idempotent.  Two successful creates with the
same user data under distinct fresh generated ids both succeed, answer with
the two distinct ids, and leave two distinct stored points carrying the same
payload: the store grows by exactly two, with no deduplication. -/
theorem C8_create_not_idempotent (oracle : EmbedRequest → EmbedResp) (s : Store)
    (u : User) (id1 id2 : String) (emb : Vec)
    (hne : id1 ≠ id2)
    (hf1 : ∀ p ∈ s, p.id ≠ id1) (hf2 : ∀ p ∈ s, p.id ≠ id2)
    (he : get_embedding oracle (user_to_text u) = Except.ok emb) :
    ∃ s1 s2 r1 r2,
      create_user oracle id1 s u = (s1, Except.ok r1) ∧
      create_user oracle id2 s1 u = (s2, Except.ok r2) ∧
      r1.id ≠ r2.id ∧ r1.user = u ∧ r2.user = u ∧
      s2.length = s.length + 2 ∧
      (∃ p ∈ s2, p.id = id1 ∧ p.payload = u) ∧
      (∃ p ∈ s2, p.id = id2 ∧ p.payload = u) := by
  have hfilter1 : s.filter (fun p => !(p.id == id1)) = s := filter_ne_id_of_fresh s id1 hf1
  have hfilter2 : ((⟨id1, emb, u⟩ : Point) :: s).filter (fun p => !(p.id == id2)) =
      (⟨id1, emb, u⟩ : Point) :: s := by
    refine filter_ne_id_of_fresh _ id2 ?_
    intro p hp
    rcases List.mem_cons.mp hp with rfl | hp'
    · exact hne
    · exact hf2 p hp'
  refine ⟨⟨id1, emb, u⟩ :: s, ⟨id2, emb, u⟩ :: ⟨id1, emb, u⟩ :: s,
    ⟨id1, u, none⟩, ⟨id2, u, none⟩, ?_, ?_, hne, rfl, rfl, by simp, ?_, ?_⟩
  · simp [create_user, he, upsert, hfilter1]
  · simp [create_user, he, upsert, hfilter2]
  · exact ⟨⟨id1, emb, u⟩, by simp, rfl, rfl⟩
  · exact ⟨⟨id2, emb, u⟩, by simp, rfl, rfl⟩

/-- Claim C8, witness: two concrete creates of the same user under two
fresh ids yield two points and two distinct ids. -/
theorem C8_witness :
    ∃ s1 s2 r1 r2,
      create_user okOracle "id-a" [] demoUser = (s1, Except.ok r1) ∧
      create_user okOracle "id-b" s1 demoUser = (s2, Except.ok r2) ∧
      r1.id ≠ r2.id ∧ r1.user = demoUser ∧ r2.user = demoUser ∧
      s2.length = ([] : Store).length + 2 ∧
      (∃ p ∈ s2, p.id = "id-a" ∧ p.payload = demoUser) ∧
      (∃ p ∈ s2, p.id = "id-b" ∧ p.payload = demoUser) :=
  C8_create_not_idempotent okOracle [] demoUser "id-a" "id-b" [1, 2, 3]
    (by decide) (by simp) (by simp) rfl

/-- Claim C9: startup checks whether the named collection exists; when it
does, the collections are left unchanged whatever the create call would do;
when it is absent, the collection is created with size 768 and cosine
distance; an error from either external call propagates out of startup. -/
theorem C9_startup_initialization (collections : List Collection)
    (createResult : Except String Unit) (e : String) :
    (collections.any (fun c => c.name == COLLECTION_NAME) = true →
      startupInit (Except.ok collections) createResult = Except.ok collections) ∧
    (collections.any (fun c => c.name == COLLECTION_NAME) = false →
      startupInit (Except.ok collections) (Except.ok ()) =
        Except.ok (collections ++ [⟨COLLECTION_NAME, ⟨768, Distance.COSINE⟩⟩])) ∧
    (startupInit (Except.error e) createResult = Except.error e) ∧
    (collections.any (fun c => c.name == COLLECTION_NAME) = false →
      startupInit (Except.ok collections) (Except.error e) = Except.error e) := by
  refine ⟨fun h => ?_, fun h => ?_, rfl, fun h => ?_⟩ <;>
    simp [startupInit, h, VECTOR_SIZE]

/-- Claim C9, witness: an existing collection is left unchanged, an absent
one is created with size 768 and cosine distance, and a failure during the
existence check propagates. -/
theorem C9_witness :
    startupInit (Except.ok [⟨"users1", ⟨768, Distance.COSINE⟩⟩]) (Except.ok ()) =
      Except.ok [⟨"users1", ⟨768, Distance.COSINE⟩⟩] ∧
    startupInit (Except.ok []) (Except.ok ()) =
      Except.ok ([] ++ [⟨COLLECTION_NAME, ⟨768, Distance.COSINE⟩⟩]) ∧
    startupInit (Except.error "connection refused") (Except.ok ()) =
      Except.error "connection refused" :=
  ⟨(C9_startup_initialization [⟨"users1", ⟨768, Distance.COSINE⟩⟩] (Except.ok ()) "x").1
      (by decide),
   (C9_startup_initialization [] (Except.ok ()) "x").2.1 rfl,
   (C9_startup_initialization [] (Except.ok ()) "connection refused").2.2.1⟩
